import Mathlib

/-!
Verification of the function putchard from src/libExt.c.

The repository provides a single externally callable C function:

    extern double putchard(double X) {
        char a = (char)X;
        putchar(a);
        fflush(stdout);
        return 0;
    }

We embed it shallowly.  A finite double is modelled by its exact
rational value: every finite IEEE-754 double is a rational number, and
the observable behaviour of the function depends only on that value.
The C cast to char truncates the fractional part toward zero and, on
the host the repository targets (clang, signed 8-bit char, two
complement representation), reduces the integral part into the range
from -128 to 127.  The libc call putchar converts its promoted int
argument to unsigned char (reduction mod 256) and appends that byte to
the buffer of stdout; fflush moves the buffered bytes to the delivered
output.  Stream failure is modelled by an ok flag: on a failed stream
putchar and fflush change nothing and return EOF (-1), results the
source discards.  The process state around the call is a World carrying
stdout together with the components the function never touches (stderr,
abstract globals).
-/

/-- Truncation toward zero of a rational number: the integral part kept
by the C float-to-integer conversion (C11 6.3.1.4: the fractional part
is discarded). -/
def truncQ (x : ℚ) : ℤ := if 0 ≤ x then ⌊x⌋ else -⌊-x⌋

/-- The host conversion of a finite double of value `x` to a signed
8-bit char: truncate toward zero, then reduce two-complement into the
range -128 to 127. -/
def castToChar (x : ℚ) : ℤ := Int.bmod (truncQ x) 256

/-- The state of the C stdout stream: bytes already delivered to a
reader, bytes still sitting in the stdio buffer, and whether the stream
is still functioning (`ok = false` models a closed or unwritable
stream). -/
structure StdoutState where
  delivered : List ℕ
  buffered : List ℕ
  ok : Bool
deriving DecidableEq

/-- All bytes written to the stream so far, in order: delivered first,
then the still-buffered ones. -/
def StdoutState.bytes (s : StdoutState) : List ℕ := s.delivered ++ s.buffered

/-- The libc call `putchar(c)`: converts the int argument to unsigned
char (reduction mod 256), appends that byte to the buffer of stdout and
returns it; on a failed stream it changes nothing and returns EOF
(-1). -/
def c_putchar (c : ℤ) (s : StdoutState) : ℤ × StdoutState :=
  if s.ok then
    ((c % 256).toNat, { s with buffered := s.buffered ++ [(c % 256).toNat] })
  else
    (-1, s)

/-- The libc call `fflush(stdout)`: delivers every buffered byte and
returns 0; on a failed stream it changes nothing and returns EOF
(-1). -/
def c_fflush (s : StdoutState) : ℤ × StdoutState :=
  if s.ok then
    (0, { s with delivered := s.delivered ++ s.buffered, buffered := [] })
  else
    (-1, s)

/-- The process state surrounding a call: stdout, plus the state the
function never touches (stderr and an abstract pool of globals). -/
structure World where
  stdout : StdoutState
  stderr : List ℕ
  globals : List ℤ
deriving DecidableEq

/-- The function putchard from src/libExt.c, line by line:
`char a = (char)X; putchar(a); fflush(stdout); return 0;`.  The results
of putchar and fflush are discarded, exactly as in the source. -/
def putchard (X : ℚ) (w : World) : ℚ × World :=
  let a : ℤ := castToChar X
  let r1 := c_putchar a w.stdout
  let r2 := c_fflush r1.2
  (0, { w with stdout := r2.2 })

/-- A fresh process state: functioning stdout, nothing written. -/
def initWorld : World :=
  { stdout := { delivered := [], buffered := [], ok := true }, stderr := [], globals := [] }

/-- A process state whose stdout has failed (closed or unwritable). -/
def deadWorld : World :=
  { stdout := { delivered := [], buffered := [], ok := false }, stderr := [], globals := [] }

/-- A process state with earlier output and nonempty surroundings, used
to exercise the statelessness and flushing claims away from the fresh
state. -/
def busyWorld : World :=
  { stdout := { delivered := [1, 2], buffered := [3], ok := true },
    stderr := [9], globals := [42] }

/-- The bytes a single call appends to the stream: the suffix of the
post-call stream content past the pre-call content. -/
def emittedBytes (X : ℚ) (w : World) : List ℕ :=
  ((putchard X w).2.stdout.bytes).drop w.stdout.bytes.length

/-- The statements of the body of putchard that touch the stream, in
source order: the putchar call, then the fflush call. -/
def putchardStmts (X : ℚ) : List (StdoutState → StdoutState) :=
  [fun s => (c_putchar (castToChar X) s).2, fun s => (c_fflush s).2]

/-- Fuel-bounded sequential runner: executes the statements in order,
spending one unit of fuel per statement, and fails if fuel runs out. -/
def runStmts : List (StdoutState → StdoutState) → ℕ → StdoutState → Option StdoutState
  | [], _, s => some s
  | _ :: _, 0, _ => none
  | f :: rest, n + 1, s => runStmts rest n (f s)

/-! Helper lemmas. -/

/-- Reducing the signed-char value back mod 256 recovers the low 8 bits
of the truncated integer: the wrap into the signed range and the
conversion to unsigned char performed by putchar compose to reduction
mod 256. -/
lemma castToChar_emod (x : ℚ) : castToChar x % 256 = truncQ x % 256 := by
  simp only [castToChar, Int.bmod]
  split
  · omega
  · omega

/-- Full description of a call on a functioning stream: the truncated,
wrapped byte is buffered by putchar, everything is delivered by fflush,
only stdout changes, and the return value is 0. -/
lemma putchard_ok_eq (X : ℚ) (w : World) (hok : w.stdout.ok = true) :
    putchard X w =
      (0, { w with stdout :=
        { delivered := w.stdout.delivered ++ (w.stdout.buffered ++ [(truncQ X % 256).toNat]),
          buffered := [],
          ok := true } }) := by
  unfold putchard c_putchar c_fflush
  simp [hok, castToChar_emod]

/-- On a failed stream both stdio calls are inert and their EOF results
are discarded: the call returns 0 and leaves the world as it was. -/
lemma putchard_dead_eq (X : ℚ) (w : World) (hfail : w.stdout.ok = false) :
    putchard X w = (0, w) := by
  unfold putchard c_putchar c_fflush
  simp [hfail]

/-! The claims. -/

/-- C1: for every finite double input X whose truncated integer value
lies in the range 0 to 255, a call to putchard on a functioning stdout
emits exactly one byte, equal to X narrowed to that 8-bit range, and
returns 0.0. -/
theorem C1_putchard_in_range (X : ℚ) (w : World) (hok : w.stdout.ok = true)
    (h0 : 0 ≤ truncQ X) (h255 : truncQ X ≤ 255) :
    (putchard X w).2.stdout.bytes = w.stdout.bytes ++ [(truncQ X).toNat] ∧
    (putchard X w).1 = 0 := by
  have hmod : truncQ X % 256 = truncQ X := Int.emod_eq_of_lt h0 (by omega)
  rw [putchard_ok_eq X w hok]
  simp [StdoutState.bytes, hmod]

/-- Witness for C1 at the concrete input 65 in a fresh process
state. -/
theorem C1_putchard_in_range_witness :
    initWorld.stdout.ok = true ∧ 0 ≤ truncQ 65 ∧ truncQ 65 ≤ 255 ∧
    ((putchard 65 initWorld).2.stdout.bytes = initWorld.stdout.bytes ++ [(truncQ 65).toNat] ∧
     (putchard 65 initWorld).1 = 0) :=
  ⟨rfl, by decide, by decide, C1_putchard_in_range 65 initWorld rfl (by decide) (by decide)⟩

/-- C2: for every input X and every process state, also one whose
stdout has failed, the call returns exactly 0.0: the return value does
not depend on the success or failure of the underlying write or
flush. -/
theorem C2_putchard_returns_zero (X : ℚ) (w : World) : (putchard X w).1 = 0 := rfl

/-- Witness for C2 at the concrete input 42, once on a functioning and
once on a failed stream. -/
theorem C2_putchard_returns_zero_witness :
    (putchard 42 initWorld).1 = 0 ∧ (putchard 42 deadWorld).1 = 0 :=
  ⟨C2_putchard_returns_zero 42 initWorld, C2_putchard_returns_zero 42 deadWorld⟩

/-- C3: the double-to-character narrowing truncates toward the integer
part and does not round: at input 65.5 = 131/2 the emitted byte decodes
to A (code 65), at input 120.0 it decodes to x (code 120). -/
theorem C3_truncation_not_rounding :
    (65.5 : ℚ) = 131 / 2 ∧
    (putchard (131 / 2) initWorld).2.stdout.bytes = ['A'.toNat] ∧
    (putchard 120 initWorld).2.stdout.bytes = ['x'.toNat] := by
  have ht : truncQ (131 / 2 : ℚ) = 65 := by
    have h1 : (0 : ℚ) ≤ 131 / 2 := by norm_num
    simp only [truncQ, if_pos h1]
    norm_num
  refine ⟨by norm_num, ?_, by decide⟩
  rw [putchard_ok_eq _ _ rfl]
  simp [StdoutState.bytes, initWorld, ht]

/-- C4: for out-of-range inputs the narrowing follows one consistent
8-bit wraparound rule: on a functioning stream the emitted byte always
equals the low 8 bits of the truncated integer value; in particular
input -1.0 emits byte 255 and input 256.0 emits byte 0. -/
theorem C4_wraparound (X : ℚ) (w : World) (hok : w.stdout.ok = true) :
    (putchard X w).2.stdout.bytes = w.stdout.bytes ++ [(truncQ X % 256).toNat] ∧
    (putchard (-1) initWorld).2.stdout.bytes = [255] ∧
    (putchard 256 initWorld).2.stdout.bytes = [0] := by
  refine ⟨?_, by decide, by decide⟩
  rw [putchard_ok_eq X w hok]
  simp [StdoutState.bytes]

/-- Witness for C4 at the concrete input -1 in a fresh process
state. -/
theorem C4_wraparound_witness :
    initWorld.stdout.ok = true ∧
    ((putchard (-1) initWorld).2.stdout.bytes
        = initWorld.stdout.bytes ++ [(truncQ (-1) % 256).toNat] ∧
     (putchard (-1) initWorld).2.stdout.bytes = [255] ∧
     (putchard 256 initWorld).2.stdout.bytes = [0]) :=
  ⟨rfl, C4_wraparound (-1) initWorld rfl⟩

/-- C5: a call writes exactly one byte to stdout and has no other
observable effect: stderr, the globals and the stream health are
untouched (and the input, passed by value, is never written). -/
theorem C5_frame (X : ℚ) (w : World) (hok : w.stdout.ok = true) :
    (putchard X w).2.stdout.bytes = w.stdout.bytes ++ [(truncQ X % 256).toNat] ∧
    (putchard X w).2.stderr = w.stderr ∧
    (putchard X w).2.globals = w.globals ∧
    (putchard X w).2.stdout.ok = w.stdout.ok := by
  rw [putchard_ok_eq X w hok]
  simp [StdoutState.bytes, hok]

/-- Witness for C5 at the concrete input 7 in a process state with
nonempty surroundings. -/
theorem C5_frame_witness :
    busyWorld.stdout.ok = true ∧
    ((putchard 7 busyWorld).2.stdout.bytes
        = busyWorld.stdout.bytes ++ [(truncQ 7 % 256).toNat] ∧
     (putchard 7 busyWorld).2.stderr = busyWorld.stderr ∧
     (putchard 7 busyWorld).2.globals = busyWorld.globals ∧
     (putchard 7 busyWorld).2.stdout.ok = busyWorld.stdout.ok) :=
  ⟨rfl, C5_frame 7 busyWorld rfl⟩

/-- C6: on a single thread, two consecutive calls append exactly two
bytes to the stream in call order: the byte derived from the first
input, then the byte derived from the second. -/
theorem C6_call_order (X1 X2 : ℚ) (w : World) (hok : w.stdout.ok = true) :
    (putchard X2 (putchard X1 w).2).2.stdout.bytes
      = w.stdout.bytes ++ [(truncQ X1 % 256).toNat, (truncQ X2 % 256).toNat] := by
  have h1 := putchard_ok_eq X1 w hok
  have hok2 : (putchard X1 w).2.stdout.ok = true := by rw [h1]
  rw [putchard_ok_eq X2 _ hok2, h1]
  simp [StdoutState.bytes]

/-- Witness for C6 at the concrete inputs 104 and 105 in a fresh
process state. -/
theorem C6_call_order_witness :
    initWorld.stdout.ok = true ∧
    (putchard 105 (putchard 104 initWorld).2).2.stdout.bytes
      = initWorld.stdout.bytes ++ [(truncQ 104 % 256).toNat, (truncQ 105 % 256).toNat] :=
  ⟨rfl, C6_call_order 104 105 initWorld rfl⟩

/-- C7: putchard is deterministic and stateless: called with the same
input in any two process states with a functioning stdout, it emits the
same single byte and returns the same value; both are functions of the
input alone. -/
theorem C7_stateless (X : ℚ) (w1 w2 : World)
    (h1 : w1.stdout.ok = true) (h2 : w2.stdout.ok = true) :
    (putchard X w1).1 = (putchard X w2).1 ∧
    emittedBytes X w1 = emittedBytes X w2 ∧
    emittedBytes X w1 = [(truncQ X % 256).toNat] := by
  have key : ∀ w : World, w.stdout.ok = true →
      emittedBytes X w = [(truncQ X % 256).toNat] := by
    intro w hw
    unfold emittedBytes
    rw [putchard_ok_eq X w hw]
    simp only [StdoutState.bytes]
    rw [← List.append_assoc]
    simp [List.drop_left]
  exact ⟨rfl, (key w1 h1).trans (key w2 h2).symm, key w1 h1⟩

/-- Witness for C7 at the concrete input 66, comparing a fresh process
state with one holding earlier output and nonempty surroundings. -/
theorem C7_stateless_witness :
    initWorld.stdout.ok = true ∧ busyWorld.stdout.ok = true ∧
    ((putchard 66 initWorld).1 = (putchard 66 busyWorld).1 ∧
     emittedBytes 66 initWorld = emittedBytes 66 busyWorld ∧
     emittedBytes 66 initWorld = [(truncQ 66 % 256).toNat]) :=
  ⟨rfl, rfl, C7_stateless 66 initWorld busyWorld rfl rfl⟩

/-- C8: every call flushes stdout after writing: when the call returns,
the stdio buffer is empty and the emitted byte (together with anything
buffered before the call) has been delivered to a reader of the
stream. -/
theorem C8_flushes (X : ℚ) (w : World) (hok : w.stdout.ok = true) :
    (putchard X w).2.stdout.buffered = [] ∧
    (putchard X w).2.stdout.delivered
      = w.stdout.delivered ++ (w.stdout.buffered ++ [(truncQ X % 256).toNat]) := by
  rw [putchard_ok_eq X w hok]
  exact ⟨rfl, rfl⟩

/-- Witness for C8 at the concrete input 33 in a process state whose
buffer is nonempty before the call. -/
theorem C8_flushes_witness :
    busyWorld.stdout.ok = true ∧
    ((putchard 33 busyWorld).2.stdout.buffered = [] ∧
     (putchard 33 busyWorld).2.stdout.delivered
       = busyWorld.stdout.delivered ++ (busyWorld.stdout.buffered ++ [(truncQ 33 % 256).toNat])) :=
  ⟨rfl, C8_flushes 33 busyWorld rfl⟩

/-- C9: putchard validates nothing and signals nothing: every input is
accepted on the one nominal path, and even when the underlying write
and flush fail (failed stream) the call detects nothing, changes
nothing, and still returns 0. -/
theorem C9_no_validation (X : ℚ) (w : World) (hfail : w.stdout.ok = false) :
    putchard X w = (0, w) := by
  rw [putchard_dead_eq X w hfail]

/-- Witness for C9 at the concrete input 1000000 on a failed stream. -/
theorem C9_no_validation_witness :
    deadWorld.stdout.ok = false ∧ putchard 1000000 deadWorld = (0, deadWorld) :=
  ⟨rfl, C9_no_validation 1000000 deadWorld rfl⟩

/-- C10: putchard terminates on every input: its body is the
straight-line sequence of one putchar call and one fflush call (plus a
cast and a return), so the fuel-bounded runner completes it within
exactly its two effectful statements, reaching the same final state and
returning 0. -/
theorem C10_terminates (X : ℚ) (w : World) :
    runStmts (putchardStmts X) 2 w.stdout = some (putchard X w).2.stdout ∧
    (putchardStmts X).length = 2 ∧
    putchard X w = (0, (putchard X w).2) :=
  ⟨rfl, rfl, rfl⟩
